import Mathlib

/-!
Shallow embedding of `lavis/models/blip2_models/blip2_tinystories.py`
(class `Blip2TinyStories`, the only model class of the repository).

External framework components — the HuggingFace tokenizer of the causal
language model, the pretrained causal language model itself, the visual
pipeline (frozen ViT, `ln_vision`, Q-Former and the `tinystories_proj`
linear layer) and the spacy lemmatizer — are abstracted as function-valued
fields of the model structure.  The repository's own glue logic (the
transformers version assertion, the eos/pad token wiring, batch
tokenization with padding and truncation, label masking with the ignore
sentinel -100, embedding and attention-mask concatenation, prompt handling,
and the lazily constructed lemmatizer) is translated construct by
construct from the source.
-/

/-- `packaging.version` triple, as used by `version.parse` on
`transformers.__version__`; compared lexicographically. -/
structure TVersion where
  major : Nat
  minor : Nat
  micro : Nat
  deriving DecidableEq

/-- Lexicographic strict order on parsed versions
(`version.parse(a) < version.parse(b)`). -/
def TVersion.lt (a b : TVersion) : Bool :=
  Nat.blt a.major b.major ||
    (a.major == b.major && (Nat.blt a.minor b.minor ||
      (a.minor == b.minor && Nat.blt a.micro b.micro)))

/-- `version.parse("4.27")`, the minimum transformers version asserted in
`Blip2TinyStories.__init__` (line 51). -/
def requiredTransformers : TVersion := ⟨4, 27, 0⟩

/-- Abstraction of the HuggingFace `tinystories_tokenizer`
(`AutoTokenizer.from_pretrained(..., use_fast=False)`), line 75.
`encode` is tokenization of a single string without padding
(`add_special_tokens` has no effect for this GPT-Neo style tokenizer);
`decodeSkipSpecial` is `batch_decode(..., skip_special_tokens=True)`
applied to one row; `convert_tokens_to_ids` is the vocabulary lookup of a
single token string (falling back to the unk id for a string that is not
in the vocabulary), as used by the `pad_token_id` getter;
`padTokenId` is the tokenizer's `pad_token_id`. -/
structure Tokenizer where
  encode : String → List Int
  decodeSkipSpecial : List Int → String
  convert_tokens_to_ids : String → Int
  padTokenId : Int

/-- The tokenizer's `padding_side` attribute (`"left"` or `"right"`). -/
inductive PadSide where
  | left
  | right
  deriving DecidableEq

/-- Result of calling the tokenizer on a batch of texts with
`return_tensors="pt", padding="longest", truncation=True, max_length=...`. -/
structure BatchEncoding where
  input_ids : List (List Int)
  attention_mask : List (List Nat)

/-- Length of the longest row, i.e. the common padded length produced by
`padding="longest"`. -/
def longestLen (rows : List (List Int)) : Nat :=
  rows.foldr (fun r acc => max r.length acc) 0

/-- Batch tokenization with `padding="longest"`, `truncation=True` and a
`max_length` bound, on the given padding side.  Each text is encoded, then
truncated to `max_length`; every row is padded with `padTokenId` up to the
longest (truncated) row, and the attention mask is 1 on genuine token
positions and 0 on padding positions. -/
def Tokenizer.tokenizeBatch (tok : Tokenizer) (side : PadSide) (maxLength : Nat)
    (texts : List String) : BatchEncoding :=
  let trunc := texts.map (fun t => (tok.encode t).take maxLength)
  let L := longestLen trunc
  match side with
  | .right =>
    { input_ids := trunc.map (fun r => r ++ List.replicate (L - r.length) tok.padTokenId)
      attention_mask :=
        trunc.map (fun r => List.replicate r.length 1 ++ List.replicate (L - r.length) 0) }
  | .left =>
    { input_ids := trunc.map (fun r => List.replicate (L - r.length) tok.padTokenId ++ r)
      attention_mask :=
        trunc.map (fun r => List.replicate (L - r.length) 0 ++ List.replicate r.length 1) }

/-- Keyword arguments of a call to `self.tinystories_model.generate`.
Arguments not passed at a call site are `none`. -/
structure HFGenArgs where
  do_sample : Bool
  top_p : Option ℚ
  temperature : Option ℚ
  num_beams : Nat
  max_length : Option Nat
  max_new_tokens : Option Nat
  min_length : Nat
  eos_token_id : Int
  repetition_penalty : Option ℚ
  length_penalty : ℚ
  num_return_sequences : Option Nat

/-- Keyword arguments of the loss-computing call
`self.tinystories_model(inputs_embeds=..., attention_mask=...,
return_dict=True, labels=...)` in `forward` (lines 160-165). -/
structure LMForwardCall (E : Type) where
  inputs_embeds : List (List E)
  attention_mask : List (List Nat)
  labels : List (List Int)

/-- A token of a spacy `doc`, with the fields `_lemmatize` reads. -/
structure SpacyToken where
  pos_ : String
  lemma_ : String
  text : String

/-- The spacy pipeline object (`spacy.load("en_core_web_sm")`): maps an
answer string to its analysed tokens. -/
abbrev Lemmatizer := String → List SpacyToken

/-- The `Blip2TinyStories` model.  `Img` is the type of one image of a
batch, `E` the type of one embedding vector and `L` the type of the scalar
loss.  `visualQueryEmbeds` is the composition
`tinystories_proj ∘ Qformer.bert ∘ ln_vision ∘ visual_encoder` applied to
one image: it yields `inputs_opt` for that image, one embedding per query
token.  `wte` is `tinystories_model.transformer.wte`;
`get_input_embeddings` is `tinystories_model.get_input_embeddings()`;
`lmLoss` is the loss-returning forward call of the causal language model
and `lmGenerate` its `generate` method. -/
structure Blip2TinyStories (Img E L : Type) where
  tinystories_tokenizer : Tokenizer
  visualQueryEmbeds : Img → List E
  wte : Int → E
  get_input_embeddings : Int → E
  lmLoss : LMForwardCall E → L
  lmGenerate : List (List E) → List (List Nat) → HFGenArgs → List (List Int)
  eos_token_id : Int
  max_txt_len : Nat
  prompt : String
  prompt_length : Nat
  apply_lemmatizer : Bool
  lemmatizerState : Option Lemmatizer

/-- First transformers version whose special-token setters reject a
non-string value: from 4.34, line 88's `pad_token = <int>` raises
`ValueError("Cannot set a non-string value as the pad token")`. -/
def strictPadTokenVersion : TVersion := ⟨4, 34, 0⟩

/-- How `Blip2TinyStories.__init__` can raise: the transformers version
assertion on line 51, the `IndexError` of `.input_ids[0]` on line 83
when tokenizing `"\n"` yields no token, or the `ValueError` of the
`pad_token` setter on line 88 under transformers >= 4.34, which rejects
the integer value. -/
inductive InitError where
  | assertionError
  | indexError
  | valueError
  deriving DecidableEq

/-- `Blip2TinyStories.__init__` (lines 31-101).  The pretrained submodules
are passed in as abstract functions.  After the version assertion, the eos
token id is read off as the first token of encoding `"\n"` (lines 81-83).
Line 88 then assigns that *integer* to the string-typed `pad_token`
attribute: under transformers 4.27-4.33 the assignment is accepted, the
`pad_token` getter stringifies the stored value, and every later
`pad_token_id` read therefore resolves to
`convert_tokens_to_ids(str(eos_token_id))` — the vocabulary id of the
decimal string, not the eos id itself; from transformers 4.34 the setter
raises `ValueError` instead.  `prompt_length` is the attention-mask sum of
tokenizing the prompt, i.e. its token count (lines 97-98).  `_lemmatizer`
starts as `None` (line 101). -/
def Blip2TinyStories.init {Img E L : Type} (transformersVersion : TVersion)
    (tok : Tokenizer)
    (visual : Img → List E) (wteTable : Int → E) (inputEmbeddings : Int → E)
    (lmLossF : LMForwardCall E → L)
    (lmGenerateF : List (List E) → List (List Nat) → HFGenArgs → List (List Int))
    (prompt : String) (max_txt_len : Nat) (apply_lemmatizer : Bool) :
    Except InitError (Blip2TinyStories Img E L) :=
  if TVersion.lt transformersVersion requiredTransformers then
    .error .assertionError
  else
    match tok.encode "\n" with
    | [] => .error .indexError
    | eosId :: _ =>
      if TVersion.lt transformersVersion strictPadTokenVersion then
        .ok { tinystories_tokenizer :=
                { tok with padTokenId := tok.convert_tokens_to_ids (toString eosId) }
              visualQueryEmbeds := visual
              wte := wteTable
              get_input_embeddings := inputEmbeddings
              lmLoss := lmLossF
              lmGenerate := lmGenerateF
              eos_token_id := eosId
              max_txt_len := max_txt_len
              prompt := prompt
              prompt_length := (tok.encode prompt).length
              apply_lemmatizer := apply_lemmatizer
              lemmatizerState := none }
      else
        .error .valueError

/-- The `samples` dict of `forward`: an image batch and a caption per
image. -/
structure ForwardSamples (Img : Type) where
  image : List Img
  text_input : List String

/-- The `{"loss": loss}` dict returned by `forward`. -/
structure ForwardOutput (L : Type) where
  loss : L

/-- `input_ids.masked_fill(input_ids == pad_token_id, -100)` applied to one
row (forward, lines 140-142). -/
def maskFillPad (padId : Int) (row : List Int) : List Int :=
  row.map (fun id => if id = padId then (-100 : Int) else id)

/-- `targets[:, :n] = -100` applied to one row (forward, line 144): the
first `n` entries are overwritten, the rest kept. -/
def overwriteFirst (n : Nat) (v : Int) (row : List Int) : List Int :=
  List.replicate (min n row.length) v ++ row.drop n

/-- The batch encoding computed in `forward` (lines 127-137): a newline is
appended to every caption, then the batch is tokenized with right padding,
longest-padding and truncation at `max_txt_len`. -/
def Blip2TinyStories.fwdToks {Img E L : Type} (m : Blip2TinyStories Img E L)
    (samples : ForwardSamples Img) : BatchEncoding :=
  m.tinystories_tokenizer.tokenizeBatch .right m.max_txt_len
    (samples.text_input.map (fun t => t ++ "\n"))

/-- The keyword arguments of the loss call issued by `forward`
(lines 103-165): `inputs_opt` (per-image projected query output) and its
all-ones mask `atts_opt`; captions tokenized by `fwdToks`; labels are the
input ids with pad-id positions replaced by -100, the first
`prompt_length` positions overwritten by -100 when the prompt is
non-empty, and a -100 block of query-segment width prepended; embeddings
and masks are the query segment concatenated with the text segment. -/
def Blip2TinyStories.forwardLMCall {Img E L : Type} (m : Blip2TinyStories Img E L)
    (samples : ForwardSamples Img) : LMForwardCall E :=
  let inputs_opt := samples.image.map m.visualQueryEmbeds
  let atts_opt := inputs_opt.map (fun r => (List.replicate r.length 1 : List Nat))
  let toks := m.fwdToks samples
  let targets0 := toks.input_ids.map (maskFillPad m.tinystories_tokenizer.padTokenId)
  let targets1 :=
    if m.prompt ≠ "" then targets0.map (overwriteFirst m.prompt_length (-100)) else targets0
  let empty_targets := atts_opt.map (fun r => (List.replicate r.length (-100 : Int)))
  let targets := List.zipWith (· ++ ·) empty_targets targets1
  let inputs_embeds :=
    List.zipWith (· ++ ·) inputs_opt (toks.input_ids.map (fun r => r.map m.wte))
  let attention_mask := List.zipWith (· ++ ·) atts_opt toks.attention_mask
  { inputs_embeds := inputs_embeds, attention_mask := attention_mask, labels := targets }

/-- `Blip2TinyStories.forward` (lines 103-168): returns the dict
`{"loss": loss}` where `loss` is the causal language model's loss on the
assembled call. -/
def Blip2TinyStories.forward {Img E L : Type} (m : Blip2TinyStories Img E L)
    (samples : ForwardSamples Img) : ForwardOutput L :=
  { loss := m.lmLoss (m.forwardLMCall samples) }

/-- The `samples` dict of `generate`: an image batch and an optional
`"prompt"` entry. -/
structure GenerateSamples (Img : Type) where
  image : List Img
  prompt : Option String

/-- The keyword parameters of `generate` with their Python defaults
(lines 170-183). -/
structure GenerateParams where
  use_nucleus_sampling : Bool := false
  num_beams : Nat := 5
  max_length : Nat := 30
  min_length : Nat := 1
  top_p : ℚ := 9/10
  repetition_penalty : ℚ := 1
  length_penalty : ℚ := 1
  num_captions : Nat := 1
  temperature : ℚ := 1

/-- Prompt selection and replication in `generate` (lines 218-223): the
`"prompt"` entry of `samples` when present, else the model's configured
prompt, replicated once per image of the batch. -/
def Blip2TinyStories.generatePrompts {Img E L : Type} (m : Blip2TinyStories Img E L)
    (samples : GenerateSamples Img) : List String :=
  let p :=
    match samples.prompt with
    | some pr => pr
    | none => m.prompt
  List.replicate samples.image.length p

/-- The positional and keyword arguments of one call to
`tinystories_model.generate`. -/
structure LMGenerateCall (E : Type) where
  inputs_embeds : List (List E)
  attention_mask : List (List Nat)
  args : HFGenArgs

/-- The `tinystories_model.generate` call assembled by `generate`
(lines 198-251).  The prompts are tokenized at the tokenizer's current
padding side (`generate` does not set it; all rows are identical, so the
side cannot matter); the attention mask is `atts_opt` concatenated with
the text mask; the embeddings are `inputs_opt` concatenated with the plain
`get_input_embeddings()` lookup of the prompt ids; `eos_token_id` is the
model's stored eos id. -/
def Blip2TinyStories.generateCall {Img E L : Type} (m : Blip2TinyStories Img E L)
    (side : PadSide) (samples : GenerateSamples Img) (p : GenerateParams) :
    LMGenerateCall E :=
  let inputs_opt := samples.image.map m.visualQueryEmbeds
  let atts_opt := inputs_opt.map (fun r => (List.replicate r.length 1 : List Nat))
  let toks :=
    m.tinystories_tokenizer.tokenizeBatch side m.max_txt_len (m.generatePrompts samples)
  let attention_mask := List.zipWith (· ++ ·) atts_opt toks.attention_mask
  let inputs_embeds :=
    List.zipWith (· ++ ·) inputs_opt
      (toks.input_ids.map (fun r => r.map m.get_input_embeddings))
  { inputs_embeds := inputs_embeds
    attention_mask := attention_mask
    args := { do_sample := p.use_nucleus_sampling
              top_p := some p.top_p
              temperature := some p.temperature
              num_beams := p.num_beams
              max_length := some p.max_length
              max_new_tokens := none
              min_length := p.min_length
              eos_token_id := m.eos_token_id
              repetition_penalty := some p.repetition_penalty
              length_penalty := p.length_penalty
              num_return_sequences := some p.num_captions } }

/-- `Blip2TinyStories.generate` (lines 170-285): runs the assembled
generate call, batch-decodes the produced token rows with special tokens
skipped, and strips each decoded string. -/
def Blip2TinyStories.generate {Img E L : Type} (m : Blip2TinyStories Img E L)
    (side : PadSide) (samples : GenerateSamples Img) (p : GenerateParams) :
    List String :=
  let call := m.generateCall side samples p
  let outputs := m.lmGenerate call.inputs_embeds call.attention_mask call.args
  ((outputs.map m.tinystories_tokenizer.decodeSkipSpecial).map String.trim)

/-- The `samples` dict of `predict_answers`: an image batch, question
texts, and an optional `"apply_lemmatizer"` entry (`none` when the key is
absent). -/
structure PredictSamples (Img : Type) where
  image : List Img
  text_input : List String
  apply_lemmatizer : Option Bool

/-- The keyword parameters of `predict_answers` used by its body, with
their Python defaults (lines 288-299). -/
structure PredictParams where
  num_beams : Nat := 5
  max_len : Nat := 10
  min_len : Nat := 1
  prompt : String := ""
  length_penalty : ℚ := 0

/-- Python's `template.format(question)` for a single-placeholder
template: each `{}` is replaced by the question. -/
def pyFormat (template arg : String) : String :=
  template.replace "\x7b\x7d" arg

/-- The `tinystories_model.generate` call assembled by `predict_answers`
(lines 301-352): questions (formatted into the prompt when one is given)
are tokenized with left padding; masks and embeddings are concatenated as
in `generate`; the generation arguments use `max_new_tokens`,
`do_sample=False` and the model's stored eos id. -/
def Blip2TinyStories.predictLMCall {Img E L : Type} (m : Blip2TinyStories Img E L)
    (samples : PredictSamples Img) (p : PredictParams) : LMGenerateCall E :=
  let inputs_opt := samples.image.map m.visualQueryEmbeds
  let atts_opt := inputs_opt.map (fun r => (List.replicate r.length 1 : List Nat))
  let text_input :=
    if p.prompt ≠ "" then samples.text_input.map (fun q => pyFormat p.prompt q)
    else samples.text_input
  let toks := m.tinystories_tokenizer.tokenizeBatch .left m.max_txt_len text_input
  let attention_mask := List.zipWith (· ++ ·) atts_opt toks.attention_mask
  let inputs_embeds :=
    List.zipWith (· ++ ·) inputs_opt
      (toks.input_ids.map (fun r => r.map m.get_input_embeddings))
  { inputs_embeds := inputs_embeds
    attention_mask := attention_mask
    args := { do_sample := false
              top_p := none
              temperature := none
              num_beams := p.num_beams
              max_length := none
              max_new_tokens := some p.max_len
              min_length := p.min_len
              eos_token_id := m.eos_token_id
              repetition_penalty := none
              length_penalty := p.length_penalty
              num_return_sequences := none } }

/-- The decoded, stripped output strings of `predict_answers`
(lines 343-356), before the optional lemmatization step. -/
def Blip2TinyStories.predictOutputText {Img E L : Type} (m : Blip2TinyStories Img E L)
    (samples : PredictSamples Img) (p : PredictParams) : List String :=
  let call := m.predictLMCall samples p
  ((m.lmGenerate call.inputs_embeds call.attention_mask call.args).map
    m.tinystories_tokenizer.decodeSkipSpecial).map String.trim

/-- The inner `apply` of `_lemmatize` (lines 363-374): runs the lemmatizer
on the answer and joins, with spaces, the lemma of each NOUN/VERB token
and the plain text of every other token. -/
def lemmaApply (lem : Lemmatizer) (answer : String) : String :=
  let words := (lem answer).map (fun token =>
    if token.pos_ = "NOUN" ∨ token.pos_ = "VERB" then token.lemma_ else token.text)
  String.intercalate " " words

/-- `_lemmatize` (lines 362-376): applies `lemmaApply` to every answer. -/
def lemmatizeAll (lem : Lemmatizer) (answers : List String) : List String :=
  answers.map (lemmaApply lem)

/-- The `lemmatizer` property (lines 378-397).  `spacyLoad` abstracts the
environment: `some l` when `import spacy` and `spacy.load("en_core_web_sm")`
succeed with pipeline `l`, `none` when the import fails.  With a cached
pipeline the cache is returned; otherwise the pipeline is loaded and
cached, or the process exits with code 1.  The result is the returned
pipeline together with the new `_lemmatizer` state. -/
def lemmatizerLoad (spacyLoad : Option Lemmatizer) (st : Option Lemmatizer) :
    Except Nat (Lemmatizer × Option Lemmatizer) :=
  match st with
  | some l => .ok (l, some l)
  | none =>
    match spacyLoad with
    | some l => .ok (l, some l)
    | none => .error 1

/-- `Blip2TinyStories.predict_answers` (lines 288-360): computes the
decoded output text and, when the model was constructed with
`apply_lemmatizer=True` or the samples dict holds a truthy
`"apply_lemmatizer"` entry, lemmatizes it through the lazily loaded
lemmatizer — which hard-exits with code 1 (the `.error` case) when spacy
is unavailable and nothing is cached. -/
def Blip2TinyStories.predictAnswers {Img E L : Type} (m : Blip2TinyStories Img E L)
    (spacyLoad : Option Lemmatizer) (samples : PredictSamples Img)
    (p : PredictParams) : Except Nat (List String) :=
  let output_text := m.predictOutputText samples p
  if m.apply_lemmatizer ||
      (match samples.apply_lemmatizer with
       | some b => b
       | none => false) then
    match lemmatizerLoad spacyLoad m.lemmatizerState with
    | .ok (lem, _) => .ok (lemmatizeAll lem output_text)
    | .error c => .error c
  else
    .ok output_text

/-- A concrete byte-level tokenizer encode for witnesses: one token per
character, the token id being the character code. -/
def toyEncode (s : String) : List Int :=
  s.data.map (fun c => (c.toNat : Int))

/-- Decoding for the byte-level witness tokenizer. -/
def toyDecode (ids : List Int) : String :=
  String.mk (ids.map (fun i => Char.ofNat i.toNat))

/-- Vocabulary lookup of the byte-level witness tokenizer: a
single-character token string maps to its character code, any other
string (such as the two-character string `"10"`) is out of vocabulary and
falls back to the unk id 63, the code of the character `?`. -/
def toyConvertTokenToId (s : String) : Int :=
  match s.data with
  | [c] => (c.toNat : Int)
  | _ => 63

/-- Witness tokenizer. -/
def toyTokenizer : Tokenizer :=
  { encode := toyEncode
    decodeSkipSpecial := toyDecode
    convert_tokens_to_ids := toyConvertTokenToId
    padTokenId := 0 }

/-- Witness visual pipeline: one query embedding per image. -/
def toyVisual : Unit → List Int := fun _ => [0]

/-- Witness `transformer.wte` embedding table. -/
def toyWte : Int → Int := fun i => i

/-- Witness `get_input_embeddings()` table. -/
def toyInputEmbeddings : Int → Int := fun i => i + 1000

/-- Witness language-model loss. -/
def toyLmLoss : LMForwardCall Int → Int := fun call => (call.labels.map List.length).sum

/-- Witness language-model generation. -/
def toyLmGenerate : List (List Int) → List (List Nat) → HFGenArgs → List (List Int) :=
  fun ie _ _ => ie.map (fun r => r.map (fun _ => (104 : Int)))

/-- Witness construction call at transformers version 4.30.2. -/
def toyInit (prompt : String) (apply_lemmatizer : Bool) :
    Except InitError (Blip2TinyStories Unit Int Int) :=
  Blip2TinyStories.init ⟨4, 30, 2⟩ toyTokenizer toyVisual toyWte toyInputEmbeddings
    toyLmLoss toyLmGenerate prompt 32 apply_lemmatizer

/-- The model `toyInit "" false` constructs: the newline token id (and so
the eos id) is 10, and the pad token id resolves to
`toyConvertTokenToId (toString 10)` = `toyConvertTokenToId "10"` = 63,
the unk id — not the eos id. -/
def toyModel : Blip2TinyStories Unit Int Int :=
  { tinystories_tokenizer := { toyTokenizer with padTokenId := 63 }
    visualQueryEmbeds := toyVisual
    wte := toyWte
    get_input_embeddings := toyInputEmbeddings
    lmLoss := toyLmLoss
    lmGenerate := toyLmGenerate
    eos_token_id := 10
    max_txt_len := 32
    prompt := ""
    prompt_length := 0
    apply_lemmatizer := false
    lemmatizerState := none }

/-- Witness spacy pipeline. -/
def toyLemmatizer : Lemmatizer := fun s => [{ pos_ := "NOUN", lemma_ := s, text := s }]

/-- Witness training batch: one image, caption `"a"`. -/
def toyForwardSamples : ForwardSamples Unit := { image := [()], text_input := ["a"] }

/-- Counterexample training batch: one image, caption `"?"` — its single
character has code 63, the very id the pad token resolves to, mirroring a
real caption containing the token `"198"` under the GPT-Neo vocabulary. -/
def cexForwardSamples : ForwardSamples Unit := { image := [()], text_input := ["?"] }

/-- Witness generation batch without a `"prompt"` entry. -/
def toyGenSamples : GenerateSamples Unit := { image := [()], prompt := none }

/-- Witness `predict_answers` batch with a truthy `"apply_lemmatizer"`. -/
def toyPredictSamplesLem : PredictSamples Unit :=
  { image := [()], text_input := ["q"], apply_lemmatizer := some true }

/-- Witness `predict_answers` batch without an `"apply_lemmatizer"` key. -/
def toyPredictSamples : PredictSamples Unit :=
  { image := [()], text_input := ["q"], apply_lemmatizer := none }

/-- Default generation parameters. -/
def toyGenerateParams : GenerateParams := {}

/-- Default `predict_answers` parameters. -/
def toyPredictParams : PredictParams := {}

/-- `getD` of an append, index inside the left part. -/
theorem getDAppendLeft {α : Type} (a b : List α) (d : α) (j : Nat) (h : j < a.length) :
    (a ++ b).getD j d = a.getD j d := by
  induction a generalizing j with
  | nil => simp at h
  | cons x xs ih =>
    cases j with
    | zero => rfl
    | succ n => simpa using ih n (by simpa using h)

/-- `getD` of an append, index offset into the right part. -/
theorem getDAppendRight {α : Type} (a b : List α) (d : α) (j : Nat) :
    (a ++ b).getD (a.length + j) d = b.getD j d := by
  induction a with
  | nil => simp
  | cons x xs ih => simpa [Nat.succ_add] using ih

/-- `getD` of a replicate, index in range. -/
theorem getDReplicate {α : Type} (n : Nat) (v d : α) (j : Nat) (h : j < n) :
    (List.replicate n v).getD j d = v := by
  induction n generalizing j with
  | zero => omega
  | succ k ih =>
    cases j with
    | zero => rfl
    | succ i => simpa [List.replicate_succ] using ih i (by omega)

/-- `getD` of a map, index in range; any default works on both sides. -/
theorem getDMapLt {α β : Type} (f : α → β) (l : List α) (j : Nat) (h : j < l.length)
    (d : β) (d' : α) : (l.map f).getD j d = f (l.getD j d') := by
  induction l generalizing j with
  | nil => simp at h
  | cons x xs ih =>
    cases j with
    | zero => rfl
    | succ n => simpa using ih n (by simpa using h)

/-- `getD` of a row-wise concatenation of two batches. -/
theorem getDZipWithAppend {α : Type} (A B : List (List α)) (i : Nat)
    (hA : i < A.length) (hB : i < B.length) :
    (List.zipWith (· ++ ·) A B).getD i [] = A.getD i [] ++ B.getD i [] := by
  induction A generalizing B i with
  | nil => simp at hA
  | cons a as ih =>
    cases B with
    | nil => simp at hB
    | cons b bs =>
      cases i with
      | zero => rfl
      | succ n => simpa using ih bs n (by simpa using hA) (by simpa using hB)

/-- `getD` of a drop. -/
theorem getDDrop {α : Type} (l : List α) (n j : Nat) (d : α) :
    (l.drop n).getD j d = l.getD (n + j) d := by
  induction l generalizing n with
  | nil => simp
  | cons x xs ih =>
    cases n with
    | zero => simp
    | succ k =>
      rw [Nat.succ_add]
      simp

/-- `getD` with an in-range index agrees with `get`. -/
theorem getDEqGet {α : Type} (l : List α) (j : Nat) (h : j < l.length) (d : α) :
    l.getD j d = l.get ⟨j, h⟩ := by
  induction l generalizing j with
  | nil => simp at h
  | cons x xs ih =>
    cases j with
    | zero => rfl
    | succ n => simpa using ih n (by simpa using h)

/-- Pointwise form of the pad-id masking of one label row. -/
theorem maskFillPad_getD (padId : Int) (row : List Int) (j : Nat) (h : j < row.length) :
    (maskFillPad padId row).getD j 0 =
      if row.getD j 0 = padId then (-100 : Int) else row.getD j 0 := by
  simpa [maskFillPad] using
    getDMapLt (fun id => if id = padId then (-100 : Int) else id) row j h 0 0

/-- Overwriting a row's first positions keeps its length. -/
theorem overwriteFirst_length (n : Nat) (v : Int) (row : List Int) :
    (overwriteFirst n v row).length = row.length := by
  simp [overwriteFirst]
  omega

/-- Pointwise form of `targets[:, :n] = v` on one row. -/
theorem overwriteFirst_getD (n : Nat) (v : Int) (row : List Int) (j : Nat)
    (h : j < row.length) :
    (overwriteFirst n v row).getD j 0 = if j < n then v else row.getD j 0 := by
  unfold overwriteFirst
  by_cases hj : j < n
  · rw [getDAppendLeft _ _ _ _ (by simp; omega)]
    rw [getDReplicate _ _ _ _ (by omega)]
    simp [hj]
  · have hmin : min n row.length = n := by omega
    have hsplit : j = (List.replicate (min n row.length) v).length + (j - n) := by
      simp [hmin]
      omega
    nth_rewrite 1 [hsplit]
    rw [getDAppendRight, getDDrop]
    have hnj : n + (j - n) = j := by omega
    rw [hnj]
    simp [hj]

/-- Batch tokenization yields one id row per input text. -/
theorem tokenizeBatch_input_ids_length (tok : Tokenizer) (side : PadSide)
    (maxLength : Nat) (texts : List String) :
    (tok.tokenizeBatch side maxLength texts).input_ids.length = texts.length := by
  cases side <;> simp [Tokenizer.tokenizeBatch]

/-- Batch tokenization yields one mask row per input text. -/
theorem tokenizeBatch_attention_mask_length (tok : Tokenizer) (side : PadSide)
    (maxLength : Nat) (texts : List String) :
    (tok.tokenizeBatch side maxLength texts).attention_mask.length = texts.length := by
  cases side <;> simp [Tokenizer.tokenizeBatch]

/-- The forward-pass tokenization has one id row per caption. -/
theorem fwdToks_input_ids_length {Img E L : Type} (m : Blip2TinyStories Img E L)
    (samples : ForwardSamples Img) :
    (m.fwdToks samples).input_ids.length = samples.text_input.length := by
  simp [Blip2TinyStories.fwdToks, tokenizeBatch_input_ids_length]

/-- The forward-pass tokenization has one mask row per caption. -/
theorem fwdToks_attention_mask_length {Img E L : Type} (m : Blip2TinyStories Img E L)
    (samples : ForwardSamples Img) :
    (m.fwdToks samples).attention_mask.length = samples.text_input.length := by
  simp [Blip2TinyStories.fwdToks, tokenizeBatch_attention_mask_length]

/-- Row `i` of an `atts_opt`-with-text-mask concatenation: the all-ones
query-segment mask followed by the text-segment mask row. -/
theorem attsOptConcatRow {Img E : Type} (vis : Img → List E) (images : List Img)
    (masks : List (List Nat)) (i : Nat) (h1 : i < images.length) (hM : i < masks.length) :
    (List.zipWith (· ++ ·)
        ((images.map vis).map (fun r => (List.replicate r.length 1 : List Nat)))
        masks).getD i []
      = List.replicate (vis (images.get ⟨i, h1⟩)).length 1 ++ masks.getD i [] := by
  rw [getDZipWithAppend _ _ i (by simpa using h1) hM]
  rw [getDMapLt _ _ i (by simpa using h1) [] []]
  rw [getDMapLt _ _ i (by simpa using h1) [] (images.get ⟨i, h1⟩)]
  rw [getDEqGet images i h1]

/-- Row `i` of `empty_targets`: a -100 block of query-segment width. -/
theorem emptyTargetsRow {Img E : Type} (vis : Img → List E) (images : List Img)
    (i : Nat) (h1 : i < images.length) :
    ((((images.map vis).map (fun r => (List.replicate r.length 1 : List Nat))).map
        (fun r => (List.replicate r.length (-100 : Int))))).getD i []
      = List.replicate (vis (images.get ⟨i, h1⟩)).length (-100 : Int) := by
  rw [getDMapLt _ _ i (by simpa using h1) [] []]
  rw [getDMapLt _ _ i (by simpa using h1) [] []]
  rw [getDMapLt _ _ i (by simpa using h1) [] (images.get ⟨i, h1⟩)]
  rw [getDEqGet images i h1]
  simp

/-- The label tensor assembled by `forward`, written out. -/
theorem forwardLMCall_labels_def {Img E L : Type} (m : Blip2TinyStories Img E L)
    (samples : ForwardSamples Img) :
    (m.forwardLMCall samples).labels =
      List.zipWith (· ++ ·)
        (((samples.image.map m.visualQueryEmbeds).map
            (fun r => (List.replicate r.length 1 : List Nat))).map
          (fun r => (List.replicate r.length (-100 : Int))))
        (if m.prompt ≠ "" then
            ((m.fwdToks samples).input_ids.map
                (maskFillPad m.tinystories_tokenizer.padTokenId)).map
              (overwriteFirst m.prompt_length (-100))
          else
            (m.fwdToks samples).input_ids.map
              (maskFillPad m.tinystories_tokenizer.padTokenId)) := rfl

/-- The attention mask assembled by `forward`, written out. -/
theorem forwardLMCall_mask_def {Img E L : Type} (m : Blip2TinyStories Img E L)
    (samples : ForwardSamples Img) :
    (m.forwardLMCall samples).attention_mask =
      List.zipWith (· ++ ·)
        ((samples.image.map m.visualQueryEmbeds).map
          (fun r => (List.replicate r.length 1 : List Nat)))
        (m.fwdToks samples).attention_mask := rfl

/-- The attention mask assembled by `generate`, written out. -/
theorem generateCall_mask_def {Img E L : Type} (m : Blip2TinyStories Img E L)
    (side : PadSide) (samples : GenerateSamples Img) (p : GenerateParams) :
    (m.generateCall side samples p).attention_mask =
      List.zipWith (· ++ ·)
        ((samples.image.map m.visualQueryEmbeds).map
          (fun r => (List.replicate r.length 1 : List Nat)))
        (m.tinystories_tokenizer.tokenizeBatch side m.max_txt_len
          (m.generatePrompts samples)).attention_mask := rfl

/-- The attention mask assembled by `predict_answers`, written out. -/
theorem predictLMCall_mask_def {Img E L : Type} (m : Blip2TinyStories Img E L)
    (samples : PredictSamples Img) (p : PredictParams) :
    (m.predictLMCall samples p).attention_mask =
      List.zipWith (· ++ ·)
        ((samples.image.map m.visualQueryEmbeds).map
          (fun r => (List.replicate r.length 1 : List Nat)))
        (m.tinystories_tokenizer.tokenizeBatch .left m.max_txt_len
          (if p.prompt ≠ "" then samples.text_input.map (fun q => pyFormat p.prompt q)
           else samples.text_input)).attention_mask := rfl

/-- Row `i` of the label tensor assembled by `forward`: the -100 query
block followed by the masked (and, with a configured prompt, overwritten)
token-id row. -/
theorem forwardLMCall_labels_row {Img E L : Type} (m : Blip2TinyStories Img E L)
    (samples : ForwardSamples Img) (i : Nat)
    (h1 : i < samples.image.length) (h2 : i < samples.text_input.length) :
    (m.forwardLMCall samples).labels.getD i [] =
      List.replicate (m.visualQueryEmbeds (samples.image.get ⟨i, h1⟩)).length (-100 : Int)
        ++ (if m.prompt ≠ "" then
              overwriteFirst m.prompt_length (-100)
                (maskFillPad m.tinystories_tokenizer.padTokenId
                  ((m.fwdToks samples).input_ids.getD i []))
            else
              maskFillPad m.tinystories_tokenizer.padTokenId
                ((m.fwdToks samples).input_ids.getD i [])) := by
  rw [forwardLMCall_labels_def]
  have hids : i < (m.fwdToks samples).input_ids.length := by
    rw [fwdToks_input_ids_length]
    exact h2
  by_cases hp : m.prompt = ""
  · simp only [hp, ne_eq, not_true_eq_false, if_false]
    rw [getDZipWithAppend _ _ i (by simpa using h1) (by simpa using hids)]
    rw [emptyTargetsRow m.visualQueryEmbeds samples.image i h1]
    rw [getDMapLt _ _ i hids [] []]
  · simp only [hp, ne_eq, not_false_eq_true, if_true]
    rw [getDZipWithAppend _ _ i (by simpa using h1) (by simpa using hids)]
    rw [emptyTargetsRow m.visualQueryEmbeds samples.image i h1]
    rw [getDMapLt _ _ i (by simpa using hids) [] []]
    rw [getDMapLt _ _ i hids [] []]

/-- Every row of a batch is at most the longest-row length. -/
theorem longestLen_ge (rows : List (List Int)) (i : Nat) (h : i < rows.length) :
    (rows.getD i []).length ≤ longestLen rows := by
  induction rows generalizing i with
  | nil => simp at h
  | cons r rs ih =>
    cases i with
    | zero => exact le_max_left _ _
    | succ n =>
      exact le_trans (ih n (by simpa using h)) (le_max_right _ _)

/-- Rows of a right-padded batch encoding: the truncated encoding followed
by pad ids, and the all-ones mask followed by zeros. -/
theorem tokenizeBatchRight_rows (tok : Tokenizer) (maxLength : Nat)
    (texts : List String) (i : Nat) (h : i < texts.length) :
    (tok.tokenizeBatch .right maxLength texts).input_ids.getD i [] =
      (tok.encode (texts.get ⟨i, h⟩)).take maxLength ++
        List.replicate (longestLen (texts.map (fun t => (tok.encode t).take maxLength))
            - ((tok.encode (texts.get ⟨i, h⟩)).take maxLength).length) tok.padTokenId
    ∧ (tok.tokenizeBatch .right maxLength texts).attention_mask.getD i [] =
      List.replicate ((tok.encode (texts.get ⟨i, h⟩)).take maxLength).length 1 ++
        List.replicate (longestLen (texts.map (fun t => (tok.encode t).take maxLength))
            - ((tok.encode (texts.get ⟨i, h⟩)).take maxLength).length) 0 := by
  constructor
  · show ((texts.map fun t => (tok.encode t).take maxLength).map _).getD i [] = _
    rw [getDMapLt _ _ i (by simpa using h) [] []]
    rw [getDMapLt _ _ i h [] (texts.get ⟨i, h⟩)]
    rw [getDEqGet texts i h]
  · show ((texts.map fun t => (tok.encode t).take maxLength).map _).getD i [] = _
    rw [getDMapLt _ _ i (by simpa using h) [] []]
    rw [getDMapLt _ _ i h [] (texts.get ⟨i, h⟩)]
    rw [getDEqGet texts i h]

/-- `fwdToks`, unfolded. -/
theorem fwdToks_def {Img E L : Type} (m : Blip2TinyStories Img E L)
    (samples : ForwardSamples Img) :
    m.fwdToks samples = m.tinystories_tokenizer.tokenizeBatch .right m.max_txt_len
      (samples.text_input.map (fun t => t ++ "\n")) := rfl

/-- In a right-padded row, a position whose attention mask is 0 holds the
pad token id. -/
theorem rightRow_pad (trunc : List Int) (padv : Int) (L j : Nat)
    (hj : j < (trunc ++ List.replicate (L - trunc.length) padv).length)
    (hmask :
      (List.replicate trunc.length 1 ++ List.replicate (L - trunc.length) 0).getD j 1 = 0) :
    (trunc ++ List.replicate (L - trunc.length) padv).getD j 0 = padv := by
  by_cases hlt : j < trunc.length
  · exfalso
    rw [getDAppendLeft _ _ _ _ (by simpa using hlt), getDReplicate _ _ _ _ hlt] at hmask
    exact one_ne_zero hmask
  · have hsplit : j = trunc.length + (j - trunc.length) := by omega
    nth_rewrite 1 [hsplit]
    rw [getDAppendRight]
    have hlen : j < trunc.length + (L - trunc.length) := by simpa using hj
    exact getDReplicate _ _ _ _ (by omega)

/-- Fields of a successfully constructed model: the eos id is the first
token of encoding `"\n"`, the pad token id is the vocabulary lookup of the
stringified eos id, and the lemmatizer cache starts empty. -/
theorem init_ok_extract {Img E L : Type} (transformersVersion : TVersion)
    (tok : Tokenizer) (visual : Img → List E) (wteTable inputEmbeddings : Int → E)
    (lmLossF : LMForwardCall E → L)
    (lmGenerateF : List (List E) → List (List Nat) → HFGenArgs → List (List Int))
    (prompt : String) (max_txt_len : Nat) (apply_lemmatizer : Bool)
    (m : Blip2TinyStories Img E L)
    (hinit : Blip2TinyStories.init transformersVersion tok visual wteTable
      inputEmbeddings lmLossF lmGenerateF prompt max_txt_len apply_lemmatizer = .ok m) :
    m.eos_token_id = (tok.encode "\n").headD 0 ∧
    m.tinystories_tokenizer.padTokenId =
      tok.convert_tokens_to_ids (toString m.eos_token_id) ∧
    m.lemmatizerState = none := by
  unfold Blip2TinyStories.init at hinit
  by_cases hv : TVersion.lt transformersVersion requiredTransformers = true
  · simp [hv] at hinit
  · simp only [hv, Bool.false_eq_true, if_false] at hinit
    cases htok : tok.encode "\n" with
    | nil =>
      rw [htok] at hinit
      simp at hinit
    | cons a as =>
      rw [htok] at hinit
      by_cases hs : TVersion.lt transformersVersion strictPadTokenVersion = true
      · simp only [hs, if_true, Except.ok.injEq] at hinit
        subst hinit
        simp
      · simp only [hs, Bool.false_eq_true, if_false] at hinit
        simp at hinit

/-- C1 fails as stated: the pad token id resolves to the vocabulary id of
the *stringified* eos id (here 63, the id of `?`; for the GPT-Neo
vocabulary, the id of the token `"198"`), so with the empty prompt and
the single caption `"?"` the caption's own token sits at a genuine,
non-padded text position (its attention mask is 1), yet `masked_fill`
turns its label into -100 instead of the caption token id. -/
theorem c1_label_counterexample :
    toyInit "" false = .ok toyModel ∧
    toyModel.prompt = "" ∧
    toyModel.tinystories_tokenizer.padTokenId = 63 ∧
    (toyModel.fwdToks cexForwardSamples).input_ids = [[63, 10]] ∧
    (toyModel.fwdToks cexForwardSamples).attention_mask = [[1, 1]] ∧
    (toyModel.forwardLMCall cexForwardSamples).labels = [[-100, -100, 10]] ∧
    ¬ (((toyModel.forwardLMCall cexForwardSamples).labels.getD 0 []).getD 1 0 =
        ((toyModel.fwdToks cexForwardSamples).input_ids.getD 0 []).getD 0 0) :=
  ⟨rfl, rfl, rfl, by decide, by decide, by decide, by decide⟩

/-- C1 (amended): in the label tensor handed to the language model before
the loss call, every query-segment position is -100, and text position `j`
is -100 exactly when it is a prompt position (non-empty prompt, `j` below
`prompt_length`) or its token id equals the pad token id — a set that
includes every padded position, since padding writes the pad id — and
carries the tokenized caption id otherwise. -/
theorem c1_label_masking_amended {Img E L : Type} (m : Blip2TinyStories Img E L)
    (samples : ForwardSamples Img) (i j : Nat)
    (h1 : i < samples.image.length) (h2 : i < samples.text_input.length)
    (hj : j < ((m.fwdToks samples).input_ids.getD i []).length) :
    m.forward samples = { loss := m.lmLoss (m.forwardLMCall samples) } ∧
    (j < (m.visualQueryEmbeds (samples.image.get ⟨i, h1⟩)).length →
      ((m.forwardLMCall samples).labels.getD i []).getD j 0 = -100) ∧
    ((m.forwardLMCall samples).labels.getD i []).getD
        ((m.visualQueryEmbeds (samples.image.get ⟨i, h1⟩)).length + j) 0 =
      (if (m.prompt ≠ "" ∧ j < m.prompt_length) ∨
          ((m.fwdToks samples).input_ids.getD i []).getD j 0 =
            m.tinystories_tokenizer.padTokenId
        then (-100 : Int)
        else ((m.fwdToks samples).input_ids.getD i []).getD j 0) ∧
    (((m.fwdToks samples).attention_mask.getD i []).getD j 1 = 0 →
      ((m.fwdToks samples).input_ids.getD i []).getD j 0 =
        m.tinystories_tokenizer.padTokenId) := by
  have hrow := forwardLMCall_labels_row m samples i h1 h2
  have hQ : ((List.replicate
      (m.visualQueryEmbeds (samples.image.get ⟨i, h1⟩)).length (-100 : Int))).length =
      (m.visualQueryEmbeds (samples.image.get ⟨i, h1⟩)).length := by simp
  refine ⟨rfl, ?_, ?_, ?_⟩
  · intro hq
    rw [hrow, getDAppendLeft _ _ _ _ (by simpa using hq),
      getDReplicate _ _ _ _ (by simpa using hq)]
  · rw [hrow]
    nth_rewrite 2 [show (m.visualQueryEmbeds (samples.image.get ⟨i, h1⟩)).length =
      ((List.replicate
        (m.visualQueryEmbeds (samples.image.get ⟨i, h1⟩)).length (-100 : Int))).length
      from hQ.symm]
    rw [getDAppendRight]
    by_cases hp : m.prompt = ""
    · simp only [hp, ne_eq, not_true_eq_false, if_false, false_and, false_or]
      rw [maskFillPad_getD _ _ _ hj]
    · simp only [hp, ne_eq, not_false_eq_true, if_true, true_and]
      rw [overwriteFirst_getD _ _ _ _ (by simpa [maskFillPad] using hj)]
      by_cases hpl : j < m.prompt_length
      · simp [hpl]
      · simp only [hpl, if_false, false_or]
        rw [maskFillPad_getD _ _ _ hj]
  · intro hmask
    have hti : i < (samples.text_input.map (fun t => t ++ "\n")).length := by
      simpa using h2
    have hrows := tokenizeBatchRight_rows m.tinystories_tokenizer m.max_txt_len
      (samples.text_input.map (fun t => t ++ "\n")) i hti
    rw [fwdToks_def] at hmask hj ⊢
    rw [hrows.2] at hmask
    rw [hrows.1] at hj ⊢
    exact rightRow_pad _ _ _ _ hj hmask

/-- C4 fails as stated: for the concretely constructed model the eos id
is the newline id 10, but the pad token id is the vocabulary id of the
string `"10"` — the unk id 63 — so the pad token id does not coincide
with the eos token id, and the untruncated tokenized caption
`"a" ++ "\n"` contains no token equal to the pad token id. -/
theorem c4_pad_eos_counterexample :
    toyInit "" false = .ok toyModel ∧
    toyModel.eos_token_id = 10 ∧
    toyModel.tinystories_tokenizer.padTokenId = 63 ∧
    ¬ (toyModel.tinystories_tokenizer.padTokenId = toyModel.eos_token_id) ∧
    (toyTokenizer.encode ("a" ++ "\n")).length ≤ toyModel.max_txt_len ∧
    ¬ (toyModel.tinystories_tokenizer.padTokenId ∈
        toyTokenizer.encode ("a" ++ "\n")) :=
  ⟨rfl, rfl, rfl, by decide, by decide, by decide⟩

/-- C4 (amended): construction assigns the integer eos id to the
tokenizer's `pad_token` attribute, but the resulting pad token id is the
vocabulary id of the decimal string of that eos id, so whenever that
lookup differs from the eos id — as it does for the GPT-Neo vocabulary —
the pad token id does not coincide with the eos token id, and tokenized
captions are not guaranteed to contain a genuine pad-id token. -/
theorem c4_pad_stringified_amended {Img E L : Type} (transformersVersion : TVersion)
    (tok : Tokenizer) (visual : Img → List E) (wteTable inputEmbeddings : Int → E)
    (lmLossF : LMForwardCall E → L)
    (lmGenerateF : List (List E) → List (List Nat) → HFGenArgs → List (List Int))
    (prompt : String) (max_txt_len : Nat) (apply_lemmatizer : Bool)
    (m : Blip2TinyStories Img E L)
    (hinit : Blip2TinyStories.init transformersVersion tok visual wteTable
      inputEmbeddings lmLossF lmGenerateF prompt max_txt_len apply_lemmatizer = .ok m) :
    m.tinystories_tokenizer.padTokenId =
      tok.convert_tokens_to_ids (toString m.eos_token_id) ∧
    (tok.convert_tokens_to_ids (toString m.eos_token_id) ≠ m.eos_token_id →
      ¬ (m.tinystories_tokenizer.padTokenId = m.eos_token_id)) := by
  have hext := init_ok_extract transformersVersion tok visual wteTable
    inputEmbeddings lmLossF lmGenerateF prompt max_txt_len apply_lemmatizer m hinit
  refine ⟨hext.2.1, fun hne hcontra => hne ?_⟩
  rw [← hext.2.1]
  exact hcontra

/-- C2: in forward, generate and predict_answers the attention mask handed
to the language model is the all-ones visual-query mask concatenated with
the text-segment mask, so each row's length is the visual-query-segment
length plus the text-segment length. -/
theorem c2_attention_mask_concat {Img E L : Type} (m : Blip2TinyStories Img E L)
    (fsamples : ForwardSamples Img) (gsamples : GenerateSamples Img)
    (psamples : PredictSamples Img) (side : PadSide)
    (gp : GenerateParams) (pp : PredictParams) (i j k : Nat)
    (hfi : i < fsamples.image.length) (hft : i < fsamples.text_input.length)
    (hgj : j < gsamples.image.length)
    (hpk : k < psamples.image.length) (hpt : k < psamples.text_input.length) :
    ((m.forwardLMCall fsamples).attention_mask.getD i [] =
        List.replicate (m.visualQueryEmbeds (fsamples.image.get ⟨i, hfi⟩)).length 1
          ++ (m.fwdToks fsamples).attention_mask.getD i []
      ∧ ((m.forwardLMCall fsamples).attention_mask.getD i []).length =
          (m.visualQueryEmbeds (fsamples.image.get ⟨i, hfi⟩)).length
            + ((m.fwdToks fsamples).attention_mask.getD i []).length) ∧
    ((m.generateCall side gsamples gp).attention_mask.getD j [] =
        List.replicate (m.visualQueryEmbeds (gsamples.image.get ⟨j, hgj⟩)).length 1
          ++ (m.tinystories_tokenizer.tokenizeBatch side m.max_txt_len
              (m.generatePrompts gsamples)).attention_mask.getD j []
      ∧ ((m.generateCall side gsamples gp).attention_mask.getD j []).length =
          (m.visualQueryEmbeds (gsamples.image.get ⟨j, hgj⟩)).length
            + ((m.tinystories_tokenizer.tokenizeBatch side m.max_txt_len
                (m.generatePrompts gsamples)).attention_mask.getD j []).length) ∧
    ((m.predictLMCall psamples pp).attention_mask.getD k [] =
        List.replicate (m.visualQueryEmbeds (psamples.image.get ⟨k, hpk⟩)).length 1
          ++ (m.tinystories_tokenizer.tokenizeBatch .left m.max_txt_len
              (if pp.prompt ≠ "" then psamples.text_input.map (fun q => pyFormat pp.prompt q)
               else psamples.text_input)).attention_mask.getD k []
      ∧ ((m.predictLMCall psamples pp).attention_mask.getD k []).length =
          (m.visualQueryEmbeds (psamples.image.get ⟨k, hpk⟩)).length
            + ((m.tinystories_tokenizer.tokenizeBatch .left m.max_txt_len
                (if pp.prompt ≠ "" then psamples.text_input.map (fun q => pyFormat pp.prompt q)
                 else psamples.text_input)).attention_mask.getD k []).length) := by
  have hfm : i < (m.fwdToks fsamples).attention_mask.length := by
    rw [fwdToks_attention_mask_length]
    exact hft
  have hgm : j < (m.tinystories_tokenizer.tokenizeBatch side m.max_txt_len
      (m.generatePrompts gsamples)).attention_mask.length := by
    rw [tokenizeBatch_attention_mask_length]
    simp [Blip2TinyStories.generatePrompts]
    exact hgj
  have hpm : k < (m.tinystories_tokenizer.tokenizeBatch .left m.max_txt_len
      (if pp.prompt ≠ "" then psamples.text_input.map (fun q => pyFormat pp.prompt q)
       else psamples.text_input)).attention_mask.length := by
    rw [tokenizeBatch_attention_mask_length]
    split
    · simpa using hpt
    · exact hpt
  have e1 := attsOptConcatRow m.visualQueryEmbeds fsamples.image
    (m.fwdToks fsamples).attention_mask i hfi hfm
  have e2 := attsOptConcatRow m.visualQueryEmbeds gsamples.image
    (m.tinystories_tokenizer.tokenizeBatch side m.max_txt_len
      (m.generatePrompts gsamples)).attention_mask j hgj hgm
  have e3 := attsOptConcatRow m.visualQueryEmbeds psamples.image
    (m.tinystories_tokenizer.tokenizeBatch .left m.max_txt_len
      (if pp.prompt ≠ "" then psamples.text_input.map (fun q => pyFormat pp.prompt q)
       else psamples.text_input)).attention_mask k hpk hpm
  rw [forwardLMCall_mask_def]
  rw [generateCall_mask_def]
  rw [predictLMCall_mask_def]
  refine ⟨⟨e1, ?_⟩, ⟨e2, ?_⟩, ⟨e3, ?_⟩⟩
  · rw [e1]
    simp
  · rw [e2]
    simp
  · rw [e3]
    simp

/-- C3: the stored eos token id is the first token of encoding a newline,
and it is the `eos_token_id` passed to the language model's generate call
in both generate and predict_answers. -/
theorem c3_eos_newline {Img E L : Type} (transformersVersion : TVersion)
    (tok : Tokenizer) (visual : Img → List E) (wteTable inputEmbeddings : Int → E)
    (lmLossF : LMForwardCall E → L)
    (lmGenerateF : List (List E) → List (List Nat) → HFGenArgs → List (List Int))
    (prompt : String) (max_txt_len : Nat) (apply_lemmatizer : Bool)
    (m : Blip2TinyStories Img E L)
    (hinit : Blip2TinyStories.init transformersVersion tok visual wteTable
      inputEmbeddings lmLossF lmGenerateF prompt max_txt_len apply_lemmatizer = .ok m)
    (side : PadSide) (samples : GenerateSamples Img) (p : GenerateParams)
    (psamples : PredictSamples Img) (pp : PredictParams) :
    m.eos_token_id = (tok.encode "\n").headD 0 ∧
    (m.generateCall side samples p).args.eos_token_id = m.eos_token_id ∧
    (m.predictLMCall psamples pp).args.eos_token_id = m.eos_token_id := by
  exact ⟨(init_ok_extract transformersVersion tok visual wteTable inputEmbeddings
    lmLossF lmGenerateF prompt max_txt_len apply_lemmatizer m hinit).1, rfl, rfl⟩

/-- C5: model construction fails with an assertion error if and only if
the installed transformers version is older than the required minimum
4.27; at or above 4.27 the assertion passes. -/
theorem c5_version_assertion {Img E L : Type} (transformersVersion : TVersion)
    (tok : Tokenizer) (visual : Img → List E) (wteTable inputEmbeddings : Int → E)
    (lmLossF : LMForwardCall E → L)
    (lmGenerateF : List (List E) → List (List Nat) → HFGenArgs → List (List Int))
    (prompt : String) (max_txt_len : Nat) (apply_lemmatizer : Bool) :
    (Blip2TinyStories.init transformersVersion tok visual wteTable inputEmbeddings
        lmLossF lmGenerateF prompt max_txt_len apply_lemmatizer
      = .error .assertionError)
      ↔ TVersion.lt transformersVersion requiredTransformers = true := by
  unfold Blip2TinyStories.init
  by_cases hv : TVersion.lt transformersVersion requiredTransformers = true
  · simp [hv]
  · simp only [hv, Bool.false_eq_true, if_false]
    cases htok : tok.encode "\n" with
    | nil => simp [hv]
    | cons a as =>
      by_cases hs : TVersion.lt transformersVersion strictPadTokenVersion = true
      · simp [hs, hv]
      · simp [hs, hv]

/-- C6: the lemmatizer is `None` after construction; a first access loads
and caches the spacy pipeline, a later access returns the cached object
regardless of the environment, and when spacy is unavailable and nothing
is cached the access terminates with exit code 1. -/
theorem c6_lazy_lemmatizer {Img E L : Type} (transformersVersion : TVersion)
    (tok : Tokenizer) (visual : Img → List E) (wteTable inputEmbeddings : Int → E)
    (lmLossF : LMForwardCall E → L)
    (lmGenerateF : List (List E) → List (List Nat) → HFGenArgs → List (List Int))
    (prompt : String) (max_txt_len : Nat) (apply_lemmatizer : Bool)
    (m : Blip2TinyStories Img E L)
    (hinit : Blip2TinyStories.init transformersVersion tok visual wteTable
      inputEmbeddings lmLossF lmGenerateF prompt max_txt_len apply_lemmatizer = .ok m)
    (l l0 : Lemmatizer) (spacyLoad : Option Lemmatizer) :
    m.lemmatizerState = none ∧
    lemmatizerLoad (some l) none = .ok (l, some l) ∧
    lemmatizerLoad spacyLoad (some l0) = .ok (l0, some l0) ∧
    lemmatizerLoad none none = .error 1 := by
  exact ⟨(init_ok_extract transformersVersion tok visual wteTable inputEmbeddings
    lmLossF lmGenerateF prompt max_txt_len apply_lemmatizer m hinit).2.2, rfl, rfl, rfl⟩

/-- C7: forward returns the scalar loss the causal language model computes
on the query-embedding/text-embedding concatenation. -/
theorem c7_forward_scalar_loss {Img E L : Type} (m : Blip2TinyStories Img E L)
    (samples : ForwardSamples Img) :
    m.forward samples = { loss := m.lmLoss (m.forwardLMCall samples) } ∧
    (m.forwardLMCall samples).inputs_embeds =
      List.zipWith (· ++ ·) (samples.image.map m.visualQueryEmbeds)
        ((m.fwdToks samples).input_ids.map (fun r => r.map m.wte)) :=
  ⟨rfl, rfl⟩

/-- C8: generate returns the decoded (special tokens skipped) and stripped
strings, and with no `"prompt"` key the configured prompt is replicated
once per image. -/
theorem c8_generate_decoding {Img E L : Type} (m : Blip2TinyStories Img E L)
    (side : PadSide) (samples : GenerateSamples Img) (p : GenerateParams) :
    m.generate side samples p =
      ((m.lmGenerate (m.generateCall side samples p).inputs_embeds
          (m.generateCall side samples p).attention_mask
          (m.generateCall side samples p).args).map
        m.tinystories_tokenizer.decodeSkipSpecial).map String.trim ∧
    (samples.prompt = none →
      m.generatePrompts samples = List.replicate samples.image.length m.prompt) := by
  refine ⟨rfl, fun hn => ?_⟩
  simp [Blip2TinyStories.generatePrompts, hn]

/-- C9: at generation time the text embeddings are the plain
`get_input_embeddings()` lookup of the tokenized prompt ids, concatenated
after the projected query embeddings, in both generate and
predict_answers. -/
theorem c9_generation_embedding_lookup {Img E L : Type} (m : Blip2TinyStories Img E L)
    (side : PadSide) (samples : GenerateSamples Img) (p : GenerateParams)
    (psamples : PredictSamples Img) (pp : PredictParams) :
    (m.generateCall side samples p).inputs_embeds =
      List.zipWith (· ++ ·) (samples.image.map m.visualQueryEmbeds)
        ((m.tinystories_tokenizer.tokenizeBatch side m.max_txt_len
            (m.generatePrompts samples)).input_ids.map
          (fun r => r.map m.get_input_embeddings)) ∧
    (m.predictLMCall psamples pp).inputs_embeds =
      List.zipWith (· ++ ·) (psamples.image.map m.visualQueryEmbeds)
        ((m.tinystories_tokenizer.tokenizeBatch .left m.max_txt_len
            (if pp.prompt ≠ "" then psamples.text_input.map (fun q => pyFormat pp.prompt q)
             else psamples.text_input)).input_ids.map
          (fun r => r.map m.get_input_embeddings)) :=
  ⟨rfl, rfl⟩

/-- C10: predict_answers lemmatizes its output exactly when the model was
constructed with `apply_lemmatizer=True` or the samples dict carries a
truthy `"apply_lemmatizer"` entry; the latter triggers lemmatization (and
its possible exit) even on a model constructed without the flag. -/
theorem c10_lemmatization_condition {Img E L : Type} (m : Blip2TinyStories Img E L)
    (spacyLoad : Option Lemmatizer) (samples : PredictSamples Img) (p : PredictParams)
    (lem : Lemmatizer) :
    ((m.apply_lemmatizer ||
        (match samples.apply_lemmatizer with
         | some b => b
         | none => false)) = false →
      m.predictAnswers spacyLoad samples p = .ok (m.predictOutputText samples p)) ∧
    ((m.apply_lemmatizer ||
        (match samples.apply_lemmatizer with
         | some b => b
         | none => false)) = true →
      lemmatizerLoad spacyLoad m.lemmatizerState = .ok (lem, some lem) →
      m.predictAnswers spacyLoad samples p =
        .ok (lemmatizeAll lem (m.predictOutputText samples p))) ∧
    ((m.apply_lemmatizer ||
        (match samples.apply_lemmatizer with
         | some b => b
         | none => false)) = true →
      m.lemmatizerState = none → spacyLoad = none →
      m.predictAnswers spacyLoad samples p = .error 1) := by
  unfold Blip2TinyStories.predictAnswers
  refine ⟨fun hc => ?_, fun hc hl => ?_, fun hc hst hsp => ?_⟩
  · simp [hc]
  · simp [hc, hl]
  · subst hsp
    simp [hc, hst, lemmatizerLoad]

/-- Witness for the amended C1 statement at the batch `[("a")]`, text
position 1 (the appended newline token). -/
theorem c1_label_masking_amended_witness :
    toyModel.forward toyForwardSamples =
        { loss := toyModel.lmLoss (toyModel.forwardLMCall toyForwardSamples) } ∧
    (1 < (toyModel.visualQueryEmbeds ()).length →
      ((toyModel.forwardLMCall toyForwardSamples).labels.getD 0 []).getD 1 0 = -100) ∧
    ((toyModel.forwardLMCall toyForwardSamples).labels.getD 0 []).getD
        ((toyModel.visualQueryEmbeds ()).length + 1) 0 =
      (if (toyModel.prompt ≠ "" ∧ 1 < toyModel.prompt_length) ∨
          ((toyModel.fwdToks toyForwardSamples).input_ids.getD 0 []).getD 1 0 =
            toyModel.tinystories_tokenizer.padTokenId
        then (-100 : Int)
        else ((toyModel.fwdToks toyForwardSamples).input_ids.getD 0 []).getD 1 0) ∧
    (((toyModel.fwdToks toyForwardSamples).attention_mask.getD 0 []).getD 1 1 = 0 →
      ((toyModel.fwdToks toyForwardSamples).input_ids.getD 0 []).getD 1 0 =
        toyModel.tinystories_tokenizer.padTokenId) :=
  c1_label_masking_amended toyModel toyForwardSamples 0 1
    (by decide) (by decide) (by decide)

/-- Witness for C2 at one-image batches, row 0 of each entry point. -/
theorem c2_attention_mask_concat_witness :
    ((toyModel.forwardLMCall toyForwardSamples).attention_mask.getD 0 [] =
        List.replicate (toyModel.visualQueryEmbeds ()).length 1
          ++ (toyModel.fwdToks toyForwardSamples).attention_mask.getD 0 []
      ∧ ((toyModel.forwardLMCall toyForwardSamples).attention_mask.getD 0 []).length =
          (toyModel.visualQueryEmbeds ()).length
            + ((toyModel.fwdToks toyForwardSamples).attention_mask.getD 0 []).length) ∧
    ((toyModel.generateCall .right toyGenSamples toyGenerateParams).attention_mask.getD 0 [] =
        List.replicate (toyModel.visualQueryEmbeds ()).length 1
          ++ (toyModel.tinystories_tokenizer.tokenizeBatch .right toyModel.max_txt_len
              (toyModel.generatePrompts toyGenSamples)).attention_mask.getD 0 []
      ∧ ((toyModel.generateCall .right toyGenSamples toyGenerateParams).attention_mask.getD
            0 []).length =
          (toyModel.visualQueryEmbeds ()).length
            + ((toyModel.tinystories_tokenizer.tokenizeBatch .right toyModel.max_txt_len
                (toyModel.generatePrompts toyGenSamples)).attention_mask.getD 0 []).length) ∧
    ((toyModel.predictLMCall toyPredictSamples toyPredictParams).attention_mask.getD 0 [] =
        List.replicate (toyModel.visualQueryEmbeds ()).length 1
          ++ (toyModel.tinystories_tokenizer.tokenizeBatch .left toyModel.max_txt_len
              (if toyPredictParams.prompt ≠ "" then
                toyPredictSamples.text_input.map (fun q => pyFormat toyPredictParams.prompt q)
               else toyPredictSamples.text_input)).attention_mask.getD 0 []
      ∧ ((toyModel.predictLMCall toyPredictSamples toyPredictParams).attention_mask.getD
            0 []).length =
          (toyModel.visualQueryEmbeds ()).length
            + ((toyModel.tinystories_tokenizer.tokenizeBatch .left toyModel.max_txt_len
                (if toyPredictParams.prompt ≠ "" then
                  toyPredictSamples.text_input.map (fun q => pyFormat toyPredictParams.prompt q)
                 else toyPredictSamples.text_input)).attention_mask.getD 0 []).length) :=
  c2_attention_mask_concat toyModel toyForwardSamples toyGenSamples toyPredictSamples
    .right toyGenerateParams toyPredictParams 0 0 0
    (by decide) (by decide) (by decide) (by decide) (by decide)

/-- Witness for C3 at the concrete construction `toyInit "" false`. -/
theorem c3_eos_newline_witness :
    toyModel.eos_token_id = (toyTokenizer.encode "\n").headD 0 ∧
    (toyModel.generateCall .right toyGenSamples toyGenerateParams).args.eos_token_id =
      toyModel.eos_token_id ∧
    (toyModel.predictLMCall toyPredictSamples toyPredictParams).args.eos_token_id =
      toyModel.eos_token_id :=
  c3_eos_newline ⟨4, 30, 2⟩ toyTokenizer toyVisual toyWte toyInputEmbeddings
    toyLmLoss toyLmGenerate "" 32 false toyModel rfl
    .right toyGenSamples toyGenerateParams toyPredictSamples toyPredictParams

/-- Witness for the amended C4 at the concrete construction: the pad id
is the vocabulary id of `"10"`, which differs from the eos id 10. -/
theorem c4_pad_stringified_amended_witness :
    toyModel.tinystories_tokenizer.padTokenId =
      toyTokenizer.convert_tokens_to_ids (toString toyModel.eos_token_id) ∧
    ¬ (toyModel.tinystories_tokenizer.padTokenId = toyModel.eos_token_id) :=
  ⟨(c4_pad_stringified_amended ⟨4, 30, 2⟩ toyTokenizer toyVisual toyWte
      toyInputEmbeddings toyLmLoss toyLmGenerate "" 32 false toyModel rfl).1,
   (c4_pad_stringified_amended ⟨4, 30, 2⟩ toyTokenizer toyVisual toyWte
      toyInputEmbeddings toyLmLoss toyLmGenerate "" 32 false toyModel rfl).2
     (by decide)⟩

/-- Witness for C6 at the concrete construction and pipeline. -/
theorem c6_lazy_lemmatizer_witness :
    toyModel.lemmatizerState = none ∧
    lemmatizerLoad (some toyLemmatizer) none = .ok (toyLemmatizer, some toyLemmatizer) ∧
    lemmatizerLoad none (some toyLemmatizer) = .ok (toyLemmatizer, some toyLemmatizer) ∧
    lemmatizerLoad none none = .error 1 :=
  c6_lazy_lemmatizer ⟨4, 30, 2⟩ toyTokenizer toyVisual toyWte toyInputEmbeddings
    toyLmLoss toyLmGenerate "" 32 false toyModel rfl toyLemmatizer toyLemmatizer none

/-- Witness for C8 on a batch without a `"prompt"` entry. -/
theorem c8_generate_decoding_witness :
    toyModel.generate .right toyGenSamples toyGenerateParams =
      ((toyModel.lmGenerate
          (toyModel.generateCall .right toyGenSamples toyGenerateParams).inputs_embeds
          (toyModel.generateCall .right toyGenSamples toyGenerateParams).attention_mask
          (toyModel.generateCall .right toyGenSamples toyGenerateParams).args).map
        toyModel.tinystories_tokenizer.decodeSkipSpecial).map String.trim ∧
    toyModel.generatePrompts toyGenSamples =
      List.replicate toyGenSamples.image.length toyModel.prompt :=
  ⟨(c8_generate_decoding toyModel .right toyGenSamples toyGenerateParams).1,
   (c8_generate_decoding toyModel .right toyGenSamples toyGenerateParams).2 rfl⟩

/-- Witness for C10: a truthy `"apply_lemmatizer"` entry triggers
lemmatization on a model constructed with `apply_lemmatizer=False`. -/
theorem c10_lemmatization_condition_witness :
    toyModel.apply_lemmatizer = false ∧
    toyModel.predictAnswers (some toyLemmatizer) toyPredictSamplesLem toyPredictParams =
      .ok (lemmatizeAll toyLemmatizer
        (toyModel.predictOutputText toyPredictSamplesLem toyPredictParams)) :=
  ⟨rfl,
   (c10_lemmatization_condition toyModel (some toyLemmatizer) toyPredictSamplesLem
      toyPredictParams toyLemmatizer).2.1 rfl rfl⟩
